import Mathlib

/-!
Shallow embedding of `kortex2_gripper_driver/src/gripper_hardware_interface.cpp`.

The hardware interface is a stateful C++ object; we model its member state as
an explicit `HWState` record and each member function as a state-passing Lean
function returning the `return_type` result together with the updated state.
`double` values stored in the interface's vectors are modelled as exact values
(`Val`): the code only ever stores NaN, zero, and externally supplied readings,
and no claim depends on rounding, so floating-point arithmetic never arises.
External collaborators (the Kinova session/transport objects, the
`configure_default` base-class helper, logging) are modelled at the boundary:
session interactions are recorded as an explicit list of `SessionOp` events,
and `configure_default` is modelled as succeeding.
-/

namespace Kortex2GripperDriver

/-- The `integration_lvl_t` enumeration of per-axis control modes
(declared in the driver's header, with exactly these enumerators used by
the source file). -/
inductive integration_lvl_t where
  | UNDEFINED
  | POSITION
  | VELOCITY
  | EFFORT
deriving DecidableEq, Repr

/-- The `hardware_interface::return_type` result used by every lifecycle and
switching operation in the source. -/
inductive return_type where
  | OK
  | ERROR
deriving DecidableEq, Repr

/-- The `hardware_interface::status` lifecycle field `status_`. -/
inductive Status where
  | UNKNOWN
  | CONFIGURED
  | STARTED
  | STOPPED
deriving DecidableEq, Repr

/-- Exact model of the `double` values stored in the interface's vectors:
either quiet NaN or an exact numeric value. -/
inductive Val where
  | nan : Val
  | real : ℚ → Val
deriving DecidableEq, Repr

/-- One entry of `info_.joints`: the joint's name together with the declared
command- and state-interface kind names (`hardware_interface::ComponentInfo`,
restricted to the fields the source reads). -/
structure ComponentInfo where
  name : String
  command_interfaces : List String
  state_interfaces : List String
deriving DecidableEq, Repr

/-- The `hardware_interface::HardwareInfo` description, restricted to the
`joints` field the source reads. -/
structure HardwareInfo where
  joints : List ComponentInfo
deriving DecidableEq, Repr

/-- Session interactions performed by `read`/`write`, recorded explicitly so
that theorems can speak about what is (not) sent to the device. -/
inductive SessionOp where
  | getMeasuredGripperMovement
  | refreshCommand (frame_id : Nat) (positions velocities efforts : List Val)
deriving DecidableEq, Repr

/-- The member state of `KortexGripperInterfaceHardware`: the six storage
vectors, the per-axis mode table `control_lvl_`, the stored description
`info_`, the lifecycle `status_`, and the `base_command_` frame identifier. -/
structure HWState where
  info_ : HardwareInfo
  hw_positions_ : List Val
  hw_velocities_ : List Val
  hw_efforts_ : List Val
  hw_commands_positions_ : List Val
  hw_commands_velocities_ : List Val
  hw_commands_efforts_ : List Val
  control_lvl_ : List integration_lvl_t
  status_ : Status
  frame_id_ : Nat
deriving DecidableEq, Repr

/-- `hardware_interface::HW_IF_POSITION`. -/
def HW_IF_POSITION : String := "position"

/-- `hardware_interface::HW_IF_VELOCITY`. -/
def HW_IF_VELOCITY : String := "velocity"

/-- `hardware_interface::HW_IF_EFFORT`. -/
def HW_IF_EFFORT : String := "effort"

/-- The freshly constructed interface object: all vectors empty, lifecycle
status unknown, `base_command_` frame identifier at its protobuf default 0. -/
def initState : HWState :=
  { info_ := { joints := [] }
    hw_positions_ := []
    hw_velocities_ := []
    hw_efforts_ := []
    hw_commands_positions_ := []
    hw_commands_velocities_ := []
    hw_commands_efforts_ := []
    control_lvl_ := []
    status_ := Status.UNKNOWN
    frame_id_ := 0 }

/-- `std::vector::resize(count, value)`: keep the first `count` elements and
append copies of `value` if the vector was shorter. -/
def resizeList (l : List α) (n : Nat) (fill : α) : List α :=
  l.take n ++ List.replicate (n - l.length) fill

/-- The per-joint validation loop body of `configure` (lines 70-103): exactly
one command interface and its name is `position`; exactly two state interfaces
and the FIRST one's name is `position` or `velocity` (the second state
interface's name is not inspected by the source). -/
def jointOk (j : ComponentInfo) : Bool :=
  match j.command_interfaces with
  | [c] =>
    c == HW_IF_POSITION &&
    (match j.state_interfaces with
     | [s0, _] => s0 == HW_IF_POSITION || s0 == HW_IF_VELOCITY
     | _ => false)
  | _ => false

/-- `KortexGripperInterfaceHardware::configure` (lines 52-108). The
`configure_default` base-class call is external to this repository and is
modelled as succeeding. The six storage vectors and `control_lvl_` are resized
(fill NaN, and fill `POSITION` for `control_lvl_`) BEFORE the validation loop
runs; on a validation failure the function returns `ERROR` with the resized
state and an unchanged `status_`. -/
def configure (s : HWState) (info : HardwareInfo) : return_type × HWState :=
  let n := info.joints.length
  let s1 : HWState :=
    { s with
      info_ := info
      hw_positions_ := resizeList s.hw_positions_ n Val.nan
      hw_velocities_ := resizeList s.hw_velocities_ n Val.nan
      hw_efforts_ := resizeList s.hw_efforts_ n Val.nan
      hw_commands_positions_ := resizeList s.hw_commands_positions_ n Val.nan
      hw_commands_velocities_ := resizeList s.hw_commands_velocities_ n Val.nan
      hw_commands_efforts_ := resizeList s.hw_commands_efforts_ n Val.nan
      control_lvl_ := resizeList s.control_lvl_ n integration_lvl_t.POSITION }
  if info.joints.all jointOk then
    (return_type.OK, { s1 with status_ := Status.CONFIGURED })
  else
    (return_type.ERROR, s1)

/-- The start-interface resolution loop of `prepare_command_mode_switch`
(lines 143-160): for each start key, scanning every joint in order, push the
corresponding mode whenever the key equals `<joint-name>/<kind>` for one of
the three kinds. Keys matching no joint/kind pair contribute nothing. -/
def resolveStartModes (joints : List ComponentInfo) (start_interfaces : List String) :
    List integration_lvl_t :=
  start_interfaces.flatMap (fun key =>
    joints.flatMap (fun joint =>
      (if key == joint.name ++ "/" ++ HW_IF_POSITION then [integration_lvl_t.POSITION] else []) ++
      (if key == joint.name ++ "/" ++ HW_IF_VELOCITY then [integration_lvl_t.VELOCITY] else []) ++
      (if key == joint.name ++ "/" ++ HW_IF_EFFORT then [integration_lvl_t.EFFORT] else [])))

/-- The uniform-mode check of `prepare_command_mode_switch` (line 167):
`std::all_of(new_modes.begin() + 1, new_modes.end(), mode == new_modes[0])`.
For a nonempty list this is exactly the C++ check; for the empty list the C++
expression `new_modes.begin() + 1` is already out of bounds (see claim C10),
and the model chooses `true` there. -/
def uniformOk (l : List integration_lvl_t) : Bool :=
  match l with
  | [] => true
  | m :: rest => rest.all (fun x => x == m)

/-- Character-list model of `std::string::find(pat) != npos`: does `pat`
occur contiguously inside `s`? -/
def occursIn (pat : List Char) : List Char → Bool
  | [] => pat.isEmpty
  | c :: t => pat.isPrefixOf (c :: t) || occursIn pat t

/-- The stop-key matching test of line 177:
`key.find(info_.joints[i].name) != std::string::npos`, i.e. the joint's name
occurs as a substring of the stop key. -/
def stopMatch (key : String) (joint_name : String) : Bool :=
  occursIn joint_name.data key.data

/-- Position-wise effect of the inner stop loop on one storage vector: entry
`i` is overwritten with `z` exactly when the key matches joint `i`'s name.
The C++ inner loop (lines 175-183) performs these index-`i` updates
independently, which is what the zip-map computes. -/
def stopMap (key : String) (names : List String) (l : List α) (z : α) : List α :=
  (names.zip l).map (fun p => if stopMatch key p.1 then z else p.2)

/-- Effect on the interface state of processing one stop key (the body of the
outer loop at lines 173-184): zero the matched joints' commanded-velocity and
commanded-effort slots and revert their `control_lvl_` entries to
`UNDEFINED`. -/
def stopOneKey (s : HWState) (key : String) : HWState :=
  let names := s.info_.joints.map (fun j => j.name)
  { s with
    hw_commands_velocities_ := stopMap key names s.hw_commands_velocities_ (Val.real 0)
    hw_commands_efforts_ := stopMap key names s.hw_commands_efforts_ (Val.real 0)
    control_lvl_ := stopMap key names s.control_lvl_ integration_lvl_t.UNDEFINED }

/-- The full stop phase of `prepare_command_mode_switch` (lines 173-184):
process every stop key in order. -/
def stopPhase (s : HWState) (stop_interfaces : List String) : HWState :=
  stop_interfaces.foldl stopOneKey s

/-- The commit loop of `prepare_command_mode_switch` (lines 186-194), indexed
by the list of remaining joint indices: if the axis at index `i` is not
`UNDEFINED` the function aborts with `ERROR`, keeping every mutation already
performed; otherwise `control_lvl_[i]` becomes `new_modes[i]`. -/
def commitLoop (new_modes : List integration_lvl_t) :
    List Nat → HWState → return_type × HWState
  | [], s => (return_type.OK, s)
  | i :: rest, s =>
    if s.control_lvl_.getD i integration_lvl_t.UNDEFINED ≠ integration_lvl_t.UNDEFINED then
      (return_type.ERROR, s)
    else
      commitLoop new_modes rest
        { s with
          control_lvl_ :=
            s.control_lvl_.set i (new_modes.getD i integration_lvl_t.UNDEFINED) }

/-- `KortexGripperInterfaceHardware::prepare_command_mode_switch`
(lines 136-196): resolve the start keys, reject when the resolved count
differs from the joint count or the resolved modes are not uniform (both
rejections happen before any mutation), then run the stop phase and the
commit loop. -/
def prepare_command_mode_switch (s : HWState)
    (start_interfaces stop_interfaces : List String) : return_type × HWState :=
  let new_modes := resolveStartModes s.info_.joints start_interfaces
  if new_modes.length != s.info_.joints.length then
    (return_type.ERROR, s)
  else if !(uniformOk new_modes) then
    (return_type.ERROR, s)
  else
    commitLoop new_modes (List.range s.info_.joints.length)
      (stopPhase s stop_interfaces)

/-- The NaN-seeding of `start` at index 0 (the loop at lines 246-275 runs for
`i < 1` only): replace a NaN head by zero. -/
def seedAt0 (l : List Val) : List Val :=
  match l with
  | [] => []
  | Val.nan :: rest => Val.real 0 :: rest
  | v :: rest => v :: rest

/-- `KortexGripperInterfaceHardware::start` (lines 198-280). The session
setup (connect, CreateSession, RefreshFeedback) is external; the state effect
is: seed NaN velocity/effort state and command slots at index 0 with zero
(positions are left untouched, their seeding being commented out), set
`control_lvl_[0]` to `UNDEFINED`, and move to `STARTED`. -/
def start (s : HWState) : return_type × HWState :=
  (return_type.OK,
   { s with
     hw_velocities_ := seedAt0 s.hw_velocities_
     hw_efforts_ := seedAt0 s.hw_efforts_
     hw_commands_velocities_ := seedAt0 s.hw_commands_velocities_
     hw_commands_efforts_ := seedAt0 s.hw_commands_efforts_
     control_lvl_ := s.control_lvl_.set 0 integration_lvl_t.UNDEFINED
     status_ := Status.STARTED })

/-- `KortexGripperInterfaceHardware::stop` (lines 282-298): close the session
(external) and move to `STOPPED`; no storage vector and no `control_lvl_`
entry is touched. -/
def stop (s : HWState) : return_type × HWState :=
  (return_type.OK, { s with status_ := Status.STOPPED })

/-- `KortexGripperInterfaceHardware::read` (lines 300-309): unconditionally
query the session for the measured gripper movement (no lifecycle-state
check), store the finger value into `hw_positions_[0]`, and return `OK`.
The measured value is the function's session input. -/
def read (s : HWState) (gripper_feedback_finger0 : Val) :
    return_type × HWState × List SessionOp :=
  (return_type.OK,
   { s with hw_positions_ := s.hw_positions_.set 0 gripper_feedback_finger0 },
   [SessionOp.getMeasuredGripperMovement])

/-- `KortexGripperInterfaceHardware::write` (lines 311-345): the entire body
(frame-identifier increment, command copying, session refresh) is commented
out in the source; the function performs no session interaction, changes no
state, and returns `OK`. -/
def write (s : HWState) : return_type × HWState × List SessionOp :=
  (return_type.OK, s, [])

/-- The list of joint names, in declaration order, as read by the stop loop. -/
def jointNames (s : HWState) : List String :=
  s.info_.joints.map (fun j => j.name)

/-- Iterated application of `stopMap` over a list of stop keys (the list-level
view of the outer stop loop acting on one storage vector). -/
def stopFold (names : List String) (ks : List String) (l : List α) (z : α) : List α :=
  ks.foldl (fun acc k => stopMap k names acc z) l

/-- A fully valid gripper joint description (the scenario of the spec):
one `position` command interface and `position`/`velocity` state
interfaces. -/
def gripperJoint : ComponentInfo :=
  { name := "gripper_joint"
    command_interfaces := [HW_IF_POSITION]
    state_interfaces := [HW_IF_POSITION, HW_IF_VELOCITY] }

/-- Device description with the single valid gripper joint. -/
def infoGJ : HardwareInfo := { joints := [gripperJoint] }

/-- A joint whose SECOND state interface is `effort` (first is `position`);
the command interface is valid. -/
def jEff : ComponentInfo :=
  { name := "gripper_joint"
    command_interfaces := [HW_IF_POSITION]
    state_interfaces := [HW_IF_POSITION, HW_IF_EFFORT] }

/-- Device description containing `jEff`. -/
def infoEff : HardwareInfo := { joints := [jEff] }

/-- A joint whose FIRST state interface is `effort` (rejected by the check
on `state_interfaces[0]`). -/
def jStateEffortFirst : ComponentInfo :=
  { name := "j"
    command_interfaces := [HW_IF_POSITION]
    state_interfaces := [HW_IF_EFFORT, HW_IF_VELOCITY] }

/-- Device description containing `jStateEffortFirst`. -/
def infoEffFirst : HardwareInfo := { joints := [jStateEffortFirst] }

/-- A joint declaring no command interface at all (violates the contract). -/
def jBad : ComponentInfo :=
  { name := "j"
    command_interfaces := []
    state_interfaces := [HW_IF_POSITION, HW_IF_VELOCITY] }

/-- Device description containing `jBad`. -/
def infoBad : HardwareInfo := { joints := [jBad] }

/-- Valid one-command-interface joint named `a`. -/
def jA : ComponentInfo :=
  { name := "a"
    command_interfaces := [HW_IF_POSITION]
    state_interfaces := [HW_IF_POSITION, HW_IF_VELOCITY] }

/-- Valid one-command-interface joint named `b`. -/
def jB : ComponentInfo :=
  { name := "b"
    command_interfaces := [HW_IF_POSITION]
    state_interfaces := [HW_IF_POSITION, HW_IF_VELOCITY] }

/-- A started single-joint state (joint `a`) with its axis released
(`UNDEFINED`). -/
def sA : HWState :=
  { info_ := { joints := [jA] }
    hw_positions_ := [Val.nan]
    hw_velocities_ := [Val.nan]
    hw_efforts_ := [Val.nan]
    hw_commands_positions_ := [Val.nan]
    hw_commands_velocities_ := [Val.nan]
    hw_commands_efforts_ := [Val.nan]
    control_lvl_ := [integration_lvl_t.UNDEFINED]
    status_ := Status.STARTED
    frame_id_ := 0 }

/-- A two-joint state in which axis 0 (`a`) is released but axis 1 (`b`) is
still claimed in `POSITION` mode, with nonzero commanded velocities and
efforts. -/
def sAB : HWState :=
  { info_ := { joints := [jA, jB] }
    hw_positions_ := [Val.nan, Val.nan]
    hw_velocities_ := [Val.nan, Val.nan]
    hw_efforts_ := [Val.nan, Val.nan]
    hw_commands_positions_ := [Val.nan, Val.nan]
    hw_commands_velocities_ := [Val.real 3, Val.real 4]
    hw_commands_efforts_ := [Val.real 5, Val.real 6]
    control_lvl_ := [integration_lvl_t.UNDEFINED, integration_lvl_t.POSITION]
    status_ := Status.STARTED
    frame_id_ := 0 }

/-- A started single-joint state whose axis is actively claimed in `POSITION`
mode with a concrete commanded position; frame identifier 0. -/
def sW9 : HWState :=
  { info_ := { joints := [jA] }
    hw_positions_ := [Val.real 1]
    hw_velocities_ := [Val.real 0]
    hw_efforts_ := [Val.real 0]
    hw_commands_positions_ := [Val.real 7]
    hw_commands_velocities_ := [Val.real 0]
    hw_commands_efforts_ := [Val.real 0]
    control_lvl_ := [integration_lvl_t.POSITION]
    status_ := Status.STARTED
    frame_id_ := 0 }

/-! ## Helper lemmas -/

theorem uniformOk_replicate (n : Nat) (m : integration_lvl_t) :
    uniformOk (List.replicate n m) = true := by
  cases n with
  | zero => rfl
  | succ k =>
    simp only [List.replicate_succ, uniformOk, List.all_eq_true]
    intro x hx
    rw [List.eq_of_mem_replicate hx]
    exact beq_self_eq_true m

theorem resizeList_length (l : List α) (n : Nat) (fill : α) :
    (resizeList l n fill).length = n := by
  simp only [resizeList, List.length_append, List.length_take, List.length_replicate]
  omega

theorem getD_replicate {i n : Nat} (x d : α) (h : i < n) :
    (List.replicate n x).getD i d = x := by
  induction n generalizing i with
  | zero => omega
  | succ k ih =>
    cases i with
    | zero => rfl
    | succ j => exact ih (by omega)

theorem getD_replicate_append (k : Nat) (x y d : α) (t : List α) :
    (List.replicate k x ++ y :: t).getD k d = y := by
  induction k with
  | zero => rfl
  | succ j ih => simpa [List.replicate_succ] using ih

theorem set_replicate_append (k : Nat) (x y z : α) (t : List α) :
    (List.replicate k x ++ y :: t).set k z = List.replicate k x ++ z :: t := by
  induction k with
  | zero => rfl
  | succ j ih => simp [List.replicate_succ, ih]

theorem stopMap_length (key : String) (names : List String) (l : List α) (z : α) :
    (stopMap key names l z).length = min names.length l.length := by
  simp [stopMap]

theorem stopMap_getD (key : String) (z d : α) :
    ∀ (names : List String) (l : List α) (i : Nat),
      names.length = l.length → i < l.length →
      (stopMap key names l z).getD i d =
        if stopMatch key (names.getD i "") then z else l.getD i d := by
  intro names
  induction names with
  | nil =>
    intro l i hlen hi
    simp at hlen
    omega
  | cons nm nt ih =>
    intro l i hlen hi
    cases l with
    | nil => simp at hi
    | cons x lt =>
      cases i with
      | zero => simp [stopMap]
      | succ j =>
        have hlen' : nt.length = lt.length := by
          simpa using hlen
        have hj : j < lt.length := by
          simpa using hi
        simpa [stopMap] using ih lt j hlen' hj

theorem stopFold_length (names : List String) (z : α) :
    ∀ (ks : List String) (l : List α), names.length = l.length →
      (stopFold names ks l z).length = l.length := by
  intro ks
  induction ks with
  | nil => intro l _; rfl
  | cons k kt ih =>
    intro l hlen
    have h1 : (stopMap k names l z).length = l.length := by
      rw [stopMap_length, hlen]
      omega
    have := ih (stopMap k names l z) (by rw [h1, hlen])
    simpa [stopFold, h1] using this

theorem stopFold_getD (names : List String) (z d : α) :
    ∀ (ks : List String) (l : List α) (i : Nat),
      names.length = l.length → i < l.length →
      (stopFold names ks l z).getD i d =
        if ks.any (fun k => stopMatch k (names.getD i "")) then z
        else l.getD i d := by
  intro ks
  induction ks with
  | nil => intro l i _ _; simp [stopFold]
  | cons k kt ih =>
    intro l i hlen hi
    have h1 : (stopMap k names l z).length = l.length := by
      rw [stopMap_length, hlen]; omega
    have hrec := ih (stopMap k names l z) i (by rw [h1, hlen]) (by rw [h1]; exact hi)
    have hstep := stopMap_getD k z d names l i hlen hi
    have hunf : stopFold names (k :: kt) l z = stopFold names kt (stopMap k names l z) z := rfl
    rw [hunf, hrec, hstep, List.any_cons]
    cases hk : stopMatch k (names.getD i "") <;>
      cases hkt : kt.any (fun k2 => stopMatch k2 (names.getD i "")) <;>
      simp only [hk, hkt, Bool.or_true, Bool.or_false, Bool.true_or, Bool.false_or,
        if_true, if_false, Bool.false_eq_true, Bool.true_eq_false, ite_true, ite_false]

theorem stopPhase_eq (ks : List String) :
    ∀ s : HWState,
      stopPhase s ks =
        { s with
          hw_commands_velocities_ :=
            stopFold (jointNames s) ks s.hw_commands_velocities_ (Val.real 0)
          hw_commands_efforts_ :=
            stopFold (jointNames s) ks s.hw_commands_efforts_ (Val.real 0)
          control_lvl_ :=
            stopFold (jointNames s) ks s.control_lvl_ integration_lvl_t.UNDEFINED } := by
  induction ks with
  | nil => intro s; rfl
  | cons k kt ih =>
    intro s
    have h1 : stopPhase s (k :: kt) = stopPhase (stopOneKey s k) kt := rfl
    rw [h1, ih (stopOneKey s k)]
    rfl

theorem stopPhase_info (s : HWState) (ks : List String) :
    (stopPhase s ks).info_ = s.info_ := by
  rw [stopPhase_eq ks s]

theorem stopMap_const (key : String) (z : α) :
    ∀ (names : List String) (k : Nat),
      stopMap key names (List.replicate k z) z =
        List.replicate (min names.length k) z := by
  intro names
  induction names with
  | nil => intro k; simp [stopMap]
  | cons nm nt ih =>
    intro k
    cases k with
    | zero => simp [stopMap]
    | succ j =>
      have := ih j
      simp only [stopMap, List.replicate_succ, List.zip_cons_cons, List.map_cons,
        ite_self, List.length_cons, Nat.succ_min_succ] at this ⊢
      rw [this]

theorem stopFold_replicate_self (z : α) :
    ∀ (ks names : List String) (k : Nat), names.length = k →
      stopFold names ks (List.replicate k z) z = List.replicate k z := by
  intro ks
  induction ks with
  | nil => intro names k _; rfl
  | cons key kt ih =>
    intro names k hlen
    have h1 : stopFold names (key :: kt) (List.replicate k z) z =
        stopFold names kt (stopMap key names (List.replicate k z) z) z := rfl
    rw [h1, stopMap_const key z names k, hlen, Nat.min_self,
      ih names k hlen]

theorem commitLoop_replicate (m : integration_lvl_t) :
    ∀ (b a : Nat) (s : HWState),
      s.control_lvl_ =
        List.replicate a m ++ List.replicate b integration_lvl_t.UNDEFINED →
      commitLoop (List.replicate (a + b) m) (List.range' a b) s =
        (return_type.OK, { s with control_lvl_ := List.replicate (a + b) m }) := by
  intro b
  induction b with
  | zero =>
    intro a s hs
    have hcl : s.control_lvl_ = List.replicate (a + 0) m := by simpa using hs
    show (return_type.OK, s) =
      (return_type.OK, { s with control_lvl_ := List.replicate (a + 0) m })
    rw [← hcl]
  | succ n ih =>
    intro a s hs
    have hcl : s.control_lvl_ = List.replicate a m ++
        integration_lvl_t.UNDEFINED :: List.replicate n integration_lvl_t.UNDEFINED := by
      rw [hs, List.replicate_succ]
    have hget : s.control_lvl_.getD a integration_lvl_t.UNDEFINED =
        integration_lvl_t.UNDEFINED := by
      rw [hcl]
      exact getD_replicate_append a m integration_lvl_t.UNDEFINED integration_lvl_t.UNDEFINED _
    have hnm : (List.replicate (a + (n + 1)) m).getD a integration_lvl_t.UNDEFINED = m :=
      getD_replicate m integration_lvl_t.UNDEFINED (by omega)
    have hset : s.control_lvl_.set a m =
        List.replicate (a + 1) m ++ List.replicate n integration_lvl_t.UNDEFINED := by
      rw [hcl, set_replicate_append a m integration_lvl_t.UNDEFINED m,
        List.replicate_succ' a m, List.append_assoc]
      rfl
    show (if s.control_lvl_.getD a integration_lvl_t.UNDEFINED ≠ integration_lvl_t.UNDEFINED
          then (return_type.ERROR, s)
          else commitLoop (List.replicate (a + (n + 1)) m) (List.range' (a + 1) n)
            { s with control_lvl_ := (s.control_lvl_.set a
                ((List.replicate (a + (n + 1)) m).getD a integration_lvl_t.UNDEFINED)) }) = _
    rw [hget, if_neg (by simp), hnm, hset]
    have harith : a + (n + 1) = (a + 1) + n := by omega
    rw [harith]
    exact ih (a + 1) _ rfl

theorem prepare_checks_pass (s : HWState) (start_ifs stop_ifs : List String)
    (h1 : (resolveStartModes s.info_.joints start_ifs).length = s.info_.joints.length)
    (h2 : uniformOk (resolveStartModes s.info_.joints start_ifs) = true) :
    prepare_command_mode_switch s start_ifs stop_ifs =
      commitLoop (resolveStartModes s.info_.joints start_ifs)
        (List.range s.info_.joints.length) (stopPhase s stop_ifs) := by
  simp only [prepare_command_mode_switch, h1, h2, bne_self_eq_false, Bool.not_true,
    Bool.false_eq_true, if_false, ite_false]

theorem prepare_uniform_spec (s : HWState) (start_ifs stop_ifs : List String)
    (m : integration_lvl_t)
    (hres : resolveStartModes s.info_.joints start_ifs =
      List.replicate s.info_.joints.length m)
    (hcl : s.control_lvl_ =
      List.replicate s.info_.joints.length integration_lvl_t.UNDEFINED) :
    prepare_command_mode_switch s start_ifs stop_ifs =
      (return_type.OK,
       { stopPhase s stop_ifs with
         control_lvl_ := List.replicate s.info_.joints.length m }) := by
  have hlen : (resolveStartModes s.info_.joints start_ifs).length =
      s.info_.joints.length := by
    rw [hres, List.length_replicate]
  have huni : uniformOk (resolveStartModes s.info_.joints start_ifs) = true := by
    rw [hres]; exact uniformOk_replicate _ m
  rw [prepare_checks_pass s start_ifs stop_ifs hlen huni, hres]
  have hnames : (jointNames s).length = s.info_.joints.length := by
    simp [jointNames]
  have hstopcl : (stopPhase s stop_ifs).control_lvl_ =
      List.replicate s.info_.joints.length integration_lvl_t.UNDEFINED := by
    rw [stopPhase_eq stop_ifs s]
    show stopFold (jointNames s) stop_ifs s.control_lvl_ integration_lvl_t.UNDEFINED = _
    rw [hcl, stopFold_replicate_self integration_lvl_t.UNDEFINED stop_ifs (jointNames s)
      s.info_.joints.length hnames]
  have hzero : s.info_.joints.length = 0 + s.info_.joints.length := by omega
  rw [List.range_eq_range']
  rw [hzero]
  have := commitLoop_replicate m s.info_.joints.length 0 (stopPhase s stop_ifs)
    (by rw [hstopcl]; simp)
  simpa using this

/-! ## Claim theorems -/

/-- Claim C1 (amended): a failure of the resolved-count check or of the
uniform-mode check in `prepare_command_mode_switch` happens before any
mutation, so the call returns the input state exactly unchanged — mode
table, commanded-velocity and commanded-effort slots included.  The
original claim, that EVERY error return leaves the state unchanged, is
false: when the axis-busy check fails, the stop-phase mutations and the
modes already committed to earlier axes persist (see the
counterexample). -/
theorem c1_early_failure_leaves_state_unchanged (s : HWState)
    (start_ifs stop_ifs : List String)
    (h : (resolveStartModes s.info_.joints start_ifs).length ≠ s.info_.joints.length ∨
      uniformOk (resolveStartModes s.info_.joints start_ifs) = false) :
    prepare_command_mode_switch s start_ifs stop_ifs = (return_type.ERROR, s) := by
  unfold prepare_command_mode_switch
  rcases h with h | h
  · simp [bne_iff_ne, h]
  · by_cases hlen :
      (resolveStartModes s.info_.joints start_ifs).length = s.info_.joints.length
    · simp [hlen, h]
    · simp [bne_iff_ne, hlen]

/-- Counterexample to claim C1 as stated: with joint `a` released and joint
`b` still claimed in POSITION mode, the uniform start request passes both
early checks, the commit loop claims axis 0 and only then aborts on busy
axis 1 — the call returns an error, yet the mode table has changed (axis 0
was committed to POSITION). -/
theorem c1_counterexample :
    (prepare_command_mode_switch sAB ["a/position", "b/position"] []).1 =
      return_type.ERROR ∧
    (prepare_command_mode_switch sAB ["a/position", "b/position"] []).2.control_lvl_ ≠
      sAB.control_lvl_ := by decide

/-- Witness for the amended claim C1: the empty start-set on the one-joint
state fails the count check and returns the state unchanged. -/
theorem c1_witness : prepare_command_mode_switch sA [] [] = (return_type.ERROR, sA) :=
  c1_early_failure_leaves_state_unchanged sA [] [] (Or.inl (by decide))

/-- Claim C2 (amended): after `configure` succeeds on a freshly constructed
interface, every axis's control mode equals POSITION — `control_lvl_` is
resized with fill `POSITION`, not `UNDEFINED` as the spec states (modes
first become `UNDEFINED` only in `start`, and only for axis 0). -/
theorem c2_configure_modes_all_position (s : HWState) (info : HardwareInfo)
    (hfresh : s.control_lvl_ = [])
    (hok : info.joints.all jointOk = true) :
    (configure s info).1 = return_type.OK ∧
    (configure s info).2.control_lvl_ =
      List.replicate info.joints.length integration_lvl_t.POSITION := by
  unfold configure
  simp [hok, hfresh, resizeList]

/-- Counterexample to claim C2 as stated: configuring the valid single-joint
gripper description succeeds but leaves the axis's mode at POSITION, not
UNDEFINED. -/
theorem c2_counterexample :
    (configure initState infoGJ).1 = return_type.OK ∧
    (configure initState infoGJ).2.control_lvl_ = [integration_lvl_t.POSITION] ∧
    integration_lvl_t.POSITION ≠ integration_lvl_t.UNDEFINED := by decide

/-- Witness for the amended claim C2 at the valid gripper description. -/
theorem c2_witness :
    (configure initState infoGJ).1 = return_type.OK ∧
    (configure initState infoGJ).2.control_lvl_ =
      List.replicate infoGJ.joints.length integration_lvl_t.POSITION :=
  c2_configure_modes_all_position initState infoGJ (by decide) (by decide)

/-- Claim C4 (amended): a start key that matches no joint/interface-kind
pair is silently skipped by the resolution loop — the whole call behaves
exactly as if the key were absent; no distinguished unresolved-interface
error exists, and (per the counterexample) the call can return `OK` while
ignoring the unresolved key. -/
theorem c4_unresolved_key_is_ignored (s : HWState) (key : String)
    (rest stop_ifs : List String)
    (h : ∀ j ∈ s.info_.joints,
      key ≠ j.name ++ "/" ++ HW_IF_POSITION ∧
      key ≠ j.name ++ "/" ++ HW_IF_VELOCITY ∧
      key ≠ j.name ++ "/" ++ HW_IF_EFFORT) :
    prepare_command_mode_switch s (key :: rest) stop_ifs =
      prepare_command_mode_switch s rest stop_ifs := by
  have hres : resolveStartModes s.info_.joints (key :: rest) =
      resolveStartModes s.info_.joints rest := by
    unfold resolveStartModes
    rw [List.flatMap_cons]
    have hnil : (s.info_.joints.flatMap (fun joint =>
        (if key == joint.name ++ "/" ++ HW_IF_POSITION
          then [integration_lvl_t.POSITION] else []) ++
        (if key == joint.name ++ "/" ++ HW_IF_VELOCITY
          then [integration_lvl_t.VELOCITY] else []) ++
        (if key == joint.name ++ "/" ++ HW_IF_EFFORT
          then [integration_lvl_t.EFFORT] else []))) = [] := by
      rw [List.flatMap_eq_nil_iff]
      intro j hj
      obtain ⟨h1, h2, h3⟩ := h j hj
      simp [beq_eq_false_iff_ne.mpr h1, beq_eq_false_iff_ne.mpr h2,
        beq_eq_false_iff_ne.mpr h3]
    rw [hnil, List.nil_append]
  unfold prepare_command_mode_switch
  rw [hres]

/-- Counterexample to claim C4 as stated: the start-set contains the key
`bogus`, which matches no joint/kind pair, yet `prepare_command_mode_switch`
returns `OK` (the key is silently ignored). -/
theorem c4_counterexample :
    (sA.info_.joints.all (fun j =>
      !(("bogus" : String) == j.name ++ "/" ++ HW_IF_POSITION) &&
      !(("bogus" : String) == j.name ++ "/" ++ HW_IF_VELOCITY) &&
      !(("bogus" : String) == j.name ++ "/" ++ HW_IF_EFFORT))) = true ∧
    (prepare_command_mode_switch sA ["a/position", "bogus"] []).1 =
      return_type.OK := by decide

/-- Witness for the amended claim C4: dropping the unmatched key `bogus`
leaves the call's behavior identical. -/
theorem c4_witness :
    prepare_command_mode_switch sA ["bogus", "a/position"] [] =
      prepare_command_mode_switch sA ["a/position"] [] :=
  c4_unresolved_key_is_ignored sA "bogus" ["a/position"] [] (by decide)

/-- Claim C6 (amended): `configure` rejects a description in which some
joint's state-interface count differs from two or whose FIRST state
interface is neither `position` nor `velocity`; the SECOND state
interface's kind is never inspected, so a description whose second state
interface is `effort` (with a valid first) is accepted — see the
counterexample. -/
theorem c6_state_interface_check (s : HWState) (info : HardwareInfo)
    (h : ∃ j ∈ info.joints, j.state_interfaces.length ≠ 2 ∨
      (j.state_interfaces.getD 0 "" ≠ HW_IF_POSITION ∧
       j.state_interfaces.getD 0 "" ≠ HW_IF_VELOCITY)) :
    (configure s info).1 = return_type.ERROR := by
  obtain ⟨j, hj, hviol⟩ := h
  have hjf : jointOk j = false := by
    unfold jointOk
    rcases hcmd : j.command_interfaces with _ | ⟨c, _ | ⟨c2, ct⟩⟩
    · rfl
    · rcases hst : j.state_interfaces with _ | ⟨s0, _ | ⟨s1, _ | ⟨s2, st⟩⟩⟩
      · simp
      · simp
      · rcases hviol with hlen | ⟨hp, hv⟩
        · rw [hst] at hlen
          simp at hlen
        · rw [hst] at hp hv
          simp only [List.getD, List.get?, Option.getD_some] at hp hv
          simp [beq_eq_false_iff_ne.mpr hp, beq_eq_false_iff_ne.mpr hv]
      · simp
    · rfl
  have hall : info.joints.all jointOk = false := by
    rw [List.all_eq_false]
    exact ⟨j, hj, by simp [hjf]⟩
  unfold configure
  simp [hall]

/-- Counterexample to claim C6 as stated: a description whose second state
interface is of kind `effort` (first is `position`) is ACCEPTED by
`configure`, because only `state_interfaces[0]` is checked. -/
theorem c6_counterexample :
    jEff.state_interfaces = [HW_IF_POSITION, HW_IF_EFFORT] ∧
    (configure initState infoEff).1 = return_type.OK := by decide

/-- Witness for the amended claim C6: a description whose FIRST state
interface is `effort` is rejected. -/
theorem c6_witness : (configure initState infoEffFirst).1 = return_type.ERROR :=
  c6_state_interface_check initState infoEffFirst
    ⟨jStateEffortFirst, by decide, by decide⟩

/-- Claim C7 (amended): `configure` sizes every state and command storage
vector and the mode table to the description's joint count BEFORE the
validation loop runs, so the allocation happens regardless of whether
validation succeeds — on a failing description the storage remains sized
to the rejected description (see the counterexample). -/
theorem c7_configure_allocates_regardless (s : HWState) (info : HardwareInfo) :
    (configure s info).2.hw_positions_.length = info.joints.length ∧
    (configure s info).2.hw_velocities_.length = info.joints.length ∧
    (configure s info).2.hw_efforts_.length = info.joints.length ∧
    (configure s info).2.hw_commands_positions_.length = info.joints.length ∧
    (configure s info).2.hw_commands_velocities_.length = info.joints.length ∧
    (configure s info).2.hw_commands_efforts_.length = info.joints.length ∧
    (configure s info).2.control_lvl_.length = info.joints.length ∧
    (configure s info).2.info_ = info := by
  unfold configure
  cases h : info.joints.all jointOk <;> simp [h, resizeList_length]

/-- Counterexample to claim C7 as stated: a description violating the
command-interface contract (no command interface) makes `configure` fail,
yet all storage vectors have been resized from empty to the description's
joint count. -/
theorem c7_counterexample :
    initState.hw_positions_.length = 0 ∧
    (configure initState infoBad).1 = return_type.ERROR ∧
    (configure initState infoBad).2.hw_positions_.length = 1 ∧
    (configure initState infoBad).2.control_lvl_.length = 1 := by decide

/-- Claim C8 (amended): `read` and `write` perform no lifecycle-state check
at all — in EVERY lifecycle state `read` returns `OK` and unconditionally
performs a session query, and `write` returns `OK` while performing no
session interaction; neither ever signals an invalid-state error. -/
theorem c8_read_write_unchecked (s : HWState) (v : Val) :
    (read s v).1 = return_type.OK ∧
    (read s v).2.2 = [SessionOp.getMeasuredGripperMovement] ∧
    (write s).1 = return_type.OK ∧
    (write s).2.2 = ([] : List SessionOp) :=
  ⟨rfl, rfl, rfl, rfl⟩

/-- Counterexample to claim C8 as stated: in the CONFIGURED state (before
`start`) `read` returns `OK` — not an error — and still queries the
session; likewise after `stop` both `read` and `write` return `OK`. -/
theorem c8_counterexample :
    ((configure initState infoGJ).2.status_ = Status.CONFIGURED ∧
      Status.CONFIGURED ≠ Status.STARTED) ∧
    (read (configure initState infoGJ).2 (Val.real 0)).1 = return_type.OK ∧
    (read (configure initState infoGJ).2 (Val.real 0)).2.2 =
      [SessionOp.getMeasuredGripperMovement] ∧
    ((stop sW9).2.status_ = Status.STOPPED ∧ Status.STOPPED ≠ Status.STARTED) ∧
    (read (stop sW9).2 (Val.real 0)).1 = return_type.OK ∧
    (write (stop sW9).2).1 = return_type.OK := by decide

/-- Claim C9 (amended): `write` is a no-op — it sends nothing to the
session, leaves the whole state (the frame identifier included) unchanged,
and returns `OK`; the frame-identifier increment modulo 65536 and the
command copying exist only in commented-out code. -/
theorem c9_write_is_noop (s : HWState) :
    write s = (return_type.OK, s, ([] : List SessionOp)) := rfl

/-- Counterexample to claim C9 as stated: on a started state whose axis is
actively claimed in POSITION mode with a concrete commanded position and
frame identifier 0, `write` sends no command at all, and the frame
identifier stays 0 instead of becoming (0 + 1) % 65536 = 1. -/
theorem c9_counterexample :
    sW9.control_lvl_ = [integration_lvl_t.POSITION] ∧
    sW9.hw_commands_positions_ = [Val.real 7] ∧
    (write sW9).2.2 = ([] : List SessionOp) ∧
    sW9.frame_id_ = 0 ∧
    (write sW9).2.1.frame_id_ = 0 ∧
    (sW9.frame_id_ + 1) % 65536 = 1 ∧
    (1 : Nat) ≠ 0 := by decide

/-- Claim C10: the uniform-mode check dereferences `new_modes[0]` and forms
`new_modes.begin() + 1` only behind the count check, so whenever at least
one joint is configured the resolved list reaching the check is nonempty
(no out-of-bounds access); with ZERO configured joints every request
resolves to the empty list AND passes the count check (0 = 0), so the
check is reached with an empty vector — the out-of-bounds case the claim
describes. -/
theorem c10_uniform_check_inbounds (joints : List ComponentInfo)
    (start_ifs : List String) :
    (joints ≠ [] →
      (resolveStartModes joints start_ifs).length = joints.length →
      resolveStartModes joints start_ifs ≠ []) ∧
    (resolveStartModes [] start_ifs = [] ∧
      (resolveStartModes [] start_ifs).length = ([] : List ComponentInfo).length) := by
  constructor
  · intro hne hlen hnil
    rw [hnil] at hlen
    simp only [List.length_nil] at hlen
    exact hne (List.length_eq_zero.mp hlen.symm)
  · have hres : resolveStartModes [] start_ifs = [] := by
      induction start_ifs with
      | nil => rfl
      | cons k kt ih =>
        have h1 : resolveStartModes [] (k :: kt) = resolveStartModes [] kt := rfl
        rw [h1, ih]
    exact ⟨hres, by rw [hres]; rfl⟩

/-- Witness for claim C10: with one configured joint and a matching start
key, the resolved list reaching the uniform-mode check is nonempty. -/
theorem c10_witness : resolveStartModes [jA] ["a/position"] ≠ [] :=
  (c10_uniform_check_inbounds [jA] ["a/position"]).1 (by decide) (by decide)

/-- Claim C3: when the start-set resolves to exactly one entry per axis,
all carrying the same requested mode `m`, and every axis's current mode is
UNDEFINED, `prepare_command_mode_switch` returns `OK` and afterwards every
axis's mode equals `m`; and the same request succeeds again, with the same
resulting modes, on the post-state whose axes have been stopped (all modes
reset to UNDEFINED, as a stop-set covering every axis does). -/
theorem c3_uniform_switch_on_released_axes (s : HWState)
    (start_ifs stop_ifs : List String) (m : integration_lvl_t)
    (hres : resolveStartModes s.info_.joints start_ifs =
      List.replicate s.info_.joints.length m)
    (hcl : s.control_lvl_ =
      List.replicate s.info_.joints.length integration_lvl_t.UNDEFINED) :
    ((prepare_command_mode_switch s start_ifs stop_ifs).1 = return_type.OK ∧
     (prepare_command_mode_switch s start_ifs stop_ifs).2.control_lvl_ =
       List.replicate s.info_.joints.length m) ∧
    ((prepare_command_mode_switch
        { (prepare_command_mode_switch s start_ifs stop_ifs).2 with
          control_lvl_ :=
            List.replicate s.info_.joints.length integration_lvl_t.UNDEFINED }
        start_ifs stop_ifs).1 = return_type.OK ∧
     (prepare_command_mode_switch
        { (prepare_command_mode_switch s start_ifs stop_ifs).2 with
          control_lvl_ :=
            List.replicate s.info_.joints.length integration_lvl_t.UNDEFINED }
        start_ifs stop_ifs).2.control_lvl_ =
       List.replicate s.info_.joints.length m) := by
  have h1 := prepare_uniform_spec s start_ifs stop_ifs m hres hcl
  have hinfo : (prepare_command_mode_switch s start_ifs stop_ifs).2.info_ = s.info_ := by
    rw [h1]
    show (stopPhase s stop_ifs).info_ = s.info_
    exact stopPhase_info s stop_ifs
  refine ⟨⟨by rw [h1], by rw [h1]⟩, ?_⟩
  set s2 : HWState :=
    { (prepare_command_mode_switch s start_ifs stop_ifs).2 with
      control_lvl_ :=
        List.replicate s.info_.joints.length integration_lvl_t.UNDEFINED } with hs2
  have hinfo2 : s2.info_ = s.info_ := hinfo
  have hres2 : resolveStartModes s2.info_.joints start_ifs =
      List.replicate s2.info_.joints.length m := by
    rw [hinfo2]
    exact hres
  have hcl2 : s2.control_lvl_ =
      List.replicate s2.info_.joints.length integration_lvl_t.UNDEFINED := by
    rw [hinfo2]
  have h2 := prepare_uniform_spec s2 start_ifs stop_ifs m hres2 hcl2
  exact ⟨by rw [h2], by rw [h2, hinfo2]⟩

/-- Witness for claim C3: the released single-joint state accepts the
uniform position start request and ends with the axis in POSITION mode. -/
theorem c3_witness :
    (prepare_command_mode_switch sA ["a/position"] []).1 = return_type.OK ∧
    (prepare_command_mode_switch sA ["a/position"] []).2.control_lvl_ =
      List.replicate sA.info_.joints.length integration_lvl_t.POSITION :=
  (c3_uniform_switch_on_released_axes sA ["a/position"] [] integration_lvl_t.POSITION
    (by decide) (by decide)).1

/-- Claim C5: on any request that reaches the stop phase (the two start
checks pass), `prepare_command_mode_switch` handles the stop-set by
delegating to the stop loop and then committing — no stop key ever causes
an error — and, per axis `i`: exactly when some stop key matches axis
`i`'s name (the source's matching is substring containment,
`key.find(name) != npos`), the axis's commanded-velocity and
commanded-effort slots are zeroed and its mode is set to UNDEFINED; when no
stop key matches, all three are left exactly as before the stop phase. -/
theorem c5_stop_set_handling (s : HWState) (start_ifs stop_ifs : List String)
    (i : Nat)
    (hi : i < s.info_.joints.length)
    (hlv : s.hw_commands_velocities_.length = s.info_.joints.length)
    (hle : s.hw_commands_efforts_.length = s.info_.joints.length)
    (hlc : s.control_lvl_.length = s.info_.joints.length)
    (hlen : (resolveStartModes s.info_.joints start_ifs).length =
      s.info_.joints.length)
    (huni : uniformOk (resolveStartModes s.info_.joints start_ifs) = true) :
    (prepare_command_mode_switch s start_ifs stop_ifs =
      commitLoop (resolveStartModes s.info_.joints start_ifs)
        (List.range s.info_.joints.length) (stopPhase s stop_ifs)) ∧
    (stop_ifs.any (fun k => stopMatch k ((jointNames s).getD i "")) = true →
      (stopPhase s stop_ifs).hw_commands_velocities_.getD i Val.nan = Val.real 0 ∧
      (stopPhase s stop_ifs).hw_commands_efforts_.getD i Val.nan = Val.real 0 ∧
      (stopPhase s stop_ifs).control_lvl_.getD i integration_lvl_t.POSITION =
        integration_lvl_t.UNDEFINED) ∧
    (stop_ifs.any (fun k => stopMatch k ((jointNames s).getD i "")) = false →
      (stopPhase s stop_ifs).hw_commands_velocities_.getD i Val.nan =
        s.hw_commands_velocities_.getD i Val.nan ∧
      (stopPhase s stop_ifs).hw_commands_efforts_.getD i Val.nan =
        s.hw_commands_efforts_.getD i Val.nan ∧
      (stopPhase s stop_ifs).control_lvl_.getD i integration_lvl_t.POSITION =
        s.control_lvl_.getD i integration_lvl_t.POSITION) := by
  have hnames : (jointNames s).length = s.info_.joints.length := by
    simp [jointNames]
  have hcv := stopFold_getD (jointNames s) (Val.real 0) Val.nan stop_ifs
    s.hw_commands_velocities_ i (by rw [hnames, hlv]) (by rw [hlv]; exact hi)
  have hce := stopFold_getD (jointNames s) (Val.real 0) Val.nan stop_ifs
    s.hw_commands_efforts_ i (by rw [hnames, hle]) (by rw [hle]; exact hi)
  have hcl := stopFold_getD (jointNames s) integration_lvl_t.UNDEFINED
    integration_lvl_t.POSITION stop_ifs s.control_lvl_ i
    (by rw [hnames, hlc]) (by rw [hlc]; exact hi)
  have hsp := stopPhase_eq stop_ifs s
  refine ⟨prepare_checks_pass s start_ifs stop_ifs hlen huni, ?_, ?_⟩
  · intro hany
    simp only [hsp]
    simp only [hcv, hce, hcl, hany]
    simp
  · intro hany
    simp only [hsp]
    simp only [hcv, hce, hcl, hany]
    simp

/-- Witness for claim C5 on the two-joint state: the stop key `a/velocity`
matches joint `a` (axis 0), whose commanded velocity and effort are zeroed
and whose mode reverts to UNDEFINED. -/
theorem c5_witness :
    (stopPhase sAB ["a/velocity"]).hw_commands_velocities_.getD 0 Val.nan =
      Val.real 0 ∧
    (stopPhase sAB ["a/velocity"]).hw_commands_efforts_.getD 0 Val.nan =
      Val.real 0 ∧
    (stopPhase sAB ["a/velocity"]).control_lvl_.getD 0 integration_lvl_t.POSITION =
      integration_lvl_t.UNDEFINED :=
  (c5_stop_set_handling sAB ["a/position", "b/position"] ["a/velocity"] 0
    (by decide) (by decide) (by decide) (by decide) (by decide) (by decide)).2.1
    (by decide)

end Kortex2GripperDriver
